import Mathlib

/-!
Verification development for the `gotk` CLI sources
(`cmd/gotk/create_alert.go` and the receiver listing command).

The Go code is shallowly embedded: the Kubernetes client is modelled as a
record of response functions, effects (network calls, log lines, printed
tables) are returned explicitly, and the sequence of Get results observed
by the readiness poll loop is passed as a list (one entry per poll
instant, modelling a cluster whose state may change between polls).
-/

namespace Gotk

/-- Embeds `k8s.io/apimachinery` object metadata, restricted to the fields the
embedded code reads or writes.  `resourceVersion` and `annotations` stand
for the server-managed fields that an update must preserve. -/
structure ObjectMeta where
  name : String
  nspace : String
  labels : List (String × String)
  annotations' : List (String × String)
  resourceVersion : String
  deriving DecidableEq, Repr

/-- Embeds `notificationv1.CrossNamespaceObjectReference`: a (kind, name) pair. -/
structure CrossNamespaceObjectReference where
  kind : String
  name : String
  deriving DecidableEq, Repr

/-- Embeds `notificationv1.AlertSpec` (provider reference flattened to its name,
as only `.Name` is ever set). -/
structure AlertSpec where
  providerRef : String
  eventSeverity : String
  eventSources : List CrossNamespaceObjectReference
  suspend : Bool
  deriving DecidableEq, Repr

/-- Embeds `meta.Condition`: a (type, status, message) triple.  The status is the
string-typed `corev1.ConditionStatus`. -/
structure Condition where
  type' : String
  status : String
  message : String
  deriving DecidableEq, Repr

/-- Embeds `notificationv1.AlertStatus`. -/
structure AlertStatus where
  conditions : List Condition
  deriving DecidableEq, Repr

/-- Embeds `notificationv1.Alert`. -/
structure Alert where
  metadata : ObjectMeta
  spec : AlertSpec
  status : AlertStatus
  deriving DecidableEq, Repr

/-- Embeds `corev1.ConditionTrue`. -/
def ConditionTrue : String := "True"

/-- Embeds `corev1.ConditionFalse`. -/
def ConditionFalse : String := "False"

/-- Embeds `meta.ReadyCondition`. -/
def ReadyCondition : String := "Ready"

/-- Embeds `meta.GetCondition`: the first condition in the list whose type
matches, if any. -/
def GetCondition (conditions : List Condition) (t : String) : Option Condition :=
  conditions.find? (fun c => c.type' = t)

/-- A Kubernetes API error, as classified by `errors.IsNotFound`. -/
inductive KError where
  | notFound
  | other (msg : String)
  deriving DecidableEq, Repr

/-- Embeds `errors.IsNotFound`. -/
def IsNotFound : KError → Bool
  | .notFound => true
  | .other _ => false

/-- A Go `error` value as surfaced by the commands: a wrapped API error, a
message built with `fmt.Errorf`, or the `wait` package timeout. -/
inductive GoError where
  | kerr (e : KError)
  | msg (s : String)
  | timeout
  deriving DecidableEq, Repr

/-- Embeds `types.NamespacedName`. -/
structure NamespacedName where
  nspace : String
  name : String
  deriving DecidableEq, Repr

/-- The cluster client, modelled as the responses it gives: `get` maps a
namespaced name to the fetched object or an error; `createErr`/`updateErr`
give the error (if any) of writing a given object. -/
structure KubeClient where
  get : NamespacedName → Except KError Alert
  createErr : Alert → Option KError
  updateErr : Alert → Option KError

/-- A network-visible action issued by the command layer. -/
inductive NetAction where
  | mkClient
  | getA (nn : NamespacedName)
  | create (a : Alert)
  | update (a : Alert)
  deriving DecidableEq, Repr

/-- The outcome `upsertAlert` logs on success. -/
inductive UpsertOutcome where
  | created
  | updated
  deriving DecidableEq, Repr

/-- The merge `upsertAlert` performs on the found branch:
`existing.Labels = alert.Labels; existing.Spec = alert.Spec`, all other
fields of `existing` untouched. -/
def mergeAlert (existing alert : Alert) : Alert :=
  { existing with
      metadata := { existing.metadata with labels := alert.metadata.labels }
      spec := alert.spec }

/-- Embeds `upsertAlert`: fetch the object with the alert's namespace/name;
not-found creates the desired object verbatim, found merges labels and
spec onto the existing object and updates it, and any other fetch error
is returned unchanged.  Returns the result together with the list of
issued network actions. -/
def upsertAlert (c : KubeClient) (alert : Alert) :
    Except GoError UpsertOutcome × List NetAction :=
  let namespacedName : NamespacedName :=
    { nspace := alert.metadata.nspace, name := alert.metadata.name }
  match c.get namespacedName with
  | .error e =>
    if IsNotFound e then
      match c.createErr alert with
      | some ce => (.error (.kerr ce), [.getA namespacedName, .create alert])
      | none => (.ok .created, [.getA namespacedName, .create alert])
    else
      (.error (.kerr e), [.getA namespacedName])
  | .ok existing =>
    let merged := mergeAlert existing alert
    match c.updateErr merged with
    | some ue => (.error (.kerr ue), [.getA namespacedName, .update merged])
    | none => (.ok .updated, [.getA namespacedName, .update merged])

/-- One poll step of `isAlertReady`, as a function of the outcome of the
`Get` issued at that instant.  Mirrors the body of the returned
`wait.ConditionFunc`: fetch error propagates; a Ready condition with
status True succeeds; status False fails with `fmt.Errorf(c.Message)`
(modelled as an error carrying the message verbatim); any other state
keeps polling. -/
def isAlertReady (fetched : Except KError Alert) : Bool × Option GoError :=
  match fetched with
  | .error e => (false, some (.kerr e))
  | .ok alert =>
    match GetCondition alert.status.conditions ReadyCondition with
    | some c =>
      if c.status = ConditionTrue then (true, none)
      else if c.status = ConditionFalse then (false, some (.msg c.message))
      else (false, none)
    | none => (false, none)

/-- Embeds `wait.PollImmediate` applied to `isAlertReady`, over the sequence of
`Get` outcomes observed at successive poll instants; an exhausted
sequence is the elapsed timeout.  An error or success from a step stops
the loop at once.  Returns the result and the `Get` actions issued. -/
def pollImmediate (nn : NamespacedName) :
    List (Except KError Alert) → Except GoError Unit × List NetAction
  | [] => (.error .timeout, [])
  | r :: rest =>
    match isAlertReady r with
    | (_, some e) => (.error e, [.getA nn])
    | (true, none) => (.ok (), [.getA nn])
    | (false, none) =>
      let next := pollImmediate nn rest
      (next.1, .getA nn :: next.2)

/-- Structural split of a character list at every separator occurrence
(helper for the spec-modelled parse below). -/
def splitSlash : List Char → List (List Char)
  | [] => [[]]
  | c :: cs =>
    let r := splitSlash cs
    if c = '/' then [] :: r
    else
      match r with
      | [] => [[c]]
      | hd :: tl => (c :: hd) :: tl

/-- Modelled from the spec: `utils.parseObjectKindName` is not among the
provided sources.  Per the spec, an event source is "parsed from a
`<kind>/<name>` string; invalid format (missing `/`) is a validation
error", parsing `Kustomization/gotk-system` yields kind `Kustomization`
and name `gotk-system`, and the caller detects the invalid case by the
parse yielding an empty kind: exactly two separated parts give the
(kind, name) pair, anything else is reported by an empty kind with the
input as the name. -/
def parseObjectKindName (input : String) : String × String :=
  match (splitSlash input.toList).map String.mk with
  | [kind, name] => (kind, name)
  | _ => ("", input)

/-- The event-source loop of `createAlertCmdRun`: parse each flag value in
order, failing on the first whose kind parses empty, otherwise
accumulating (kind, name) references in order. -/
def buildEventSources : List String → Except GoError (List CrossNamespaceObjectReference)
  | [] => .ok []
  | s :: rest =>
    if (parseObjectKindName s).1 = "" then
      .error (.msg ("invalid event source \x27" ++ s ++ "\x27, must be in format <kind>/<name>"))
    else
      match buildEventSources rest with
      | .error e => .error e
      | .ok tail =>
        .ok ({ kind := (parseObjectKindName s).1, name := (parseObjectKindName s).2 } :: tail)

/-- The desired `notificationv1.Alert` literal built by
`createAlertCmdRun` from the validated flags.  Fields the Go composite
literal leaves unset are the Go zero values. -/
def mkDesiredAlert (name nspace : String) (sourceLabels : List (String × String))
    (providerRef severity : String) (srcs : List CrossNamespaceObjectReference) : Alert :=
  { metadata :=
      { name := name, nspace := nspace, labels := sourceLabels,
        annotations' := [], resourceVersion := "" }
    spec :=
      { providerRef := providerRef, eventSeverity := severity,
        eventSources := srcs, suspend := false }
    status := { conditions := [] } }

/-- Modelled from the spec: `exportAlert` is not among the provided
sources.  Per the spec, `--export` "serializes the desired object to a
text representation without any network call"; serialization itself never
touches the cluster, so it is modelled as a pure success. -/
def exportAlert (_alert : Alert) : Except GoError Unit := .ok ()

/-- The inputs of one `createAlertCmdRun` invocation: positional args, the
flag-bound package variables, the outcome of `parseLabels()`, the outcome
of `utils.kubeClient(kubeconfig)`, and the `Get` outcomes the poll loop
would observe at successive instants. -/
structure CmdState where
  args : List String
  aProviderRef : String
  aEventSeverity : String
  aEventSources : List String
  labelsResult : Except GoError (List (String × String))
  exportFlag : Bool
  nspace : String
  kubeClientResult : Except GoError KubeClient
  pollResults : List (Except KError Alert)

/-- Embeds `createAlertCmdRun`: validation first (name argument, provider ref,
event sources parse and are non-empty, labels parse), then the desired
alert is built; `--export` serializes it and returns with no network
call; otherwise a client is constructed, the alert upserted and its
readiness polled.  Returns the result and the network actions issued. -/
def createAlertCmdRun (s : CmdState) : Except GoError Unit × List NetAction :=
  if s.args.length < 1 then (.error (.msg "alert name is required"), [])
  else
    let name := s.args.headD ""
    if s.aProviderRef = "" then (.error (.msg "provider ref is required"), [])
    else
      match buildEventSources s.aEventSources with
      | .error e => (.error e, [])
      | .ok eventSources =>
        if eventSources.length = 0 then
          (.error (.msg "at least one event source is required"), [])
        else
          match s.labelsResult with
          | .error e => (.error e, [])
          | .ok sourceLabels =>
            let alert := mkDesiredAlert name s.nspace sourceLabels
              s.aProviderRef s.aEventSeverity eventSources
            if s.exportFlag then (exportAlert alert, [])
            else
              match s.kubeClientResult with
              | .error e => (.error e, [.mkClient])
              | .ok kubeClient =>
                let upserted := upsertAlert kubeClient alert
                match upserted.1 with
                | .error e => (.error e, .mkClient :: upserted.2)
                | .ok _ =>
                  let nn : NamespacedName := { nspace := s.nspace, name := name }
                  let polled := pollImmediate nn s.pollResults
                  (polled.1, .mkClient :: upserted.2 ++ polled.2)

/-- Embeds `notificationv1.ReceiverSpec`, restricted to the field the listing
command reads. -/
structure ReceiverSpec where
  suspend : Bool
  deriving DecidableEq, Repr

/-- Embeds `notificationv1.ReceiverStatus`. -/
structure ReceiverStatus where
  conditions : List Condition
  deriving DecidableEq, Repr

/-- Embeds `notificationv1.Receiver`. -/
structure Receiver where
  metadata : ObjectMeta
  spec : ReceiverSpec
  status : ReceiverStatus
  deriving DecidableEq, Repr

/-- Embeds `strings.Title(strconv.FormatBool(b))`: `true`/`false` with the first
letter capitalized. -/
def titleFormatBool (b : Bool) : String :=
  (if b then "true" else "false").capitalize

/-- The row `getReceiverCmdRun` builds for one receiver: the literal
status and message of its Ready condition when present, otherwise the
`False` / "waiting to be reconciled" placeholder. -/
def receiverRow (r : Receiver) : List String :=
  match GetCondition r.status.conditions ReadyCondition with
  | some c =>
    [r.metadata.name, titleFormatBool r.spec.suspend, c.status, c.message]
  | none =>
    [r.metadata.name, titleFormatBool r.spec.suspend, ConditionFalse,
      "waiting to be reconciled"]

/-- The header `getReceiverCmdRun` prints, with the extra Namespace column
when listing across all namespaces. -/
def receiverHeader (allNamespaces : Bool) : List String :=
  if allNamespaces then ["Namespace", "Name", "Suspended", "Ready", "Message"]
  else ["Name", "Suspended", "Ready", "Message"]

/-- Observable output of the listing command: a failure-styled log line,
or a printed table. -/
inductive ListOut where
  | failuref (msg : String)
  | printTable (header : List String) (rows : List (List String))
  deriving DecidableEq, Repr

/-- Embeds `getReceiverCmdRun`, as a function of the scope flag, the configured
namespace and the outcome of the `List` call: a fetch error propagates;
an empty result logs "no receivers found" and returns nil; otherwise one
row per item, in fetch order, is printed under the header. -/
def getReceiverCmdRun (allNamespaces : Bool) (nspace : String)
    (listResult : Except KError (List Receiver)) :
    Except GoError Unit × List ListOut :=
  match listResult with
  | .error e => (.error (.kerr e), [])
  | .ok items =>
    if items.length = 0 then
      (.ok (), [.failuref ("no receivers found in " ++ nspace ++ " namespace")])
    else
      (.ok (), [.printTable (receiverHeader allNamespaces) (items.map receiverRow)])

/-! Concrete fixtures used by witness and counterexample theorems. -/

/-- A desired alert as `createAlertCmdRun` would build it. -/
def wAlert : Alert :=
  mkDesiredAlert "podinfo" "gotk-system" [("team", "dev")] "slack" "info"
    [{ kind := "Kustomization", name := "gotk-system" }]

/-- The namespaced name of `wAlert`. -/
def wNN : NamespacedName := { nspace := "gotk-system", name := "podinfo" }

/-- A client whose store is empty: every fetch is not-found, writes
succeed. -/
def wClientNotFound : KubeClient :=
  { get := fun _ => .error .notFound
    createErr := fun _ => none
    updateErr := fun _ => none }

/-- An existing cluster-side alert with server-managed metadata and a
stale spec and status. -/
def wExisting : Alert :=
  { metadata :=
      { name := "podinfo", nspace := "gotk-system", labels := [("old", "label")],
        annotations' := [("managed", "server")], resourceVersion := "42" }
    spec :=
      { providerRef := "discord", eventSeverity := "error",
        eventSources := [], suspend := true }
    status := { conditions := [{ type' := "Ready", status := "False", message := "stale" }] } }

/-- A client that returns `wExisting` on every fetch, writes succeed. -/
def wClientFound : KubeClient :=
  { get := fun _ => .ok wExisting
    createErr := fun _ => none
    updateErr := fun _ => none }

/-- An alert whose Ready condition reports True. -/
def wTrueAlert : Alert :=
  { wAlert with status := { conditions := [{ type' := "Ready", status := "True", message := "done" }] } }

/-- An alert whose Ready condition reports Unknown. -/
def wUnknownAlert : Alert :=
  { wAlert with status := { conditions := [{ type' := "Ready", status := "Unknown", message := "" }] } }

/-- An alert whose Ready condition reports False with an empty message. -/
def wFalseAlert : Alert :=
  { wAlert with status := { conditions := [{ type' := "Ready", status := "False", message := "" }] } }

/-- A receiver with no status conditions yet. -/
def wReceiver : Receiver :=
  { metadata :=
      { name := "podinfo", nspace := "flux-system", labels := [],
        annotations' := [], resourceVersion := "" }
    spec := { suspend := false }
    status := { conditions := [] } }

/-- A suspended receiver that has a Ready condition. -/
def wReadyReceiver : Receiver :=
  { metadata :=
      { name := "webapp", nspace := "flux-system", labels := [],
        annotations' := [], resourceVersion := "7" }
    spec := { suspend := true }
    status := { conditions := [{ type' := "Ready", status := "True", message := "initialized" }] } }

/-- Command inputs with no positional name argument. -/
def wStateNoName : CmdState :=
  { args := [], aProviderRef := "slack", aEventSeverity := "info",
    aEventSources := ["Kustomization/gotk-system"], labelsResult := .ok [("team", "dev")],
    exportFlag := false, nspace := "gotk-system",
    kubeClientResult := .ok wClientNotFound, pollResults := [] }

/-- Valid command inputs with the export flag set. -/
def wStateExport : CmdState :=
  { wStateNoName with args := ["podinfo"], exportFlag := true }

/-- Valid command inputs driving the create-then-poll path. -/
def wStateCreate : CmdState :=
  { wStateExport with exportFlag := false, pollResults := [.ok wTrueAlert] }

/-! Theorems. -/

/-- C1: for every desired alert, `upsertAlert` fetches the resource with
the alert's namespace/name and branches: not-found creates the desired
resource verbatim and reports the created outcome; found updates and
reports the updated outcome; any other fetch error is returned unchanged
with no create and no update issued. -/
theorem upsertAlert_fetch_branches (c : KubeClient) (alert : Alert) :
    (∀ e, c.get { nspace := alert.metadata.nspace, name := alert.metadata.name } = .error e →
      IsNotFound e = true → c.createErr alert = none →
      upsertAlert c alert =
        (.ok .created,
          [.getA { nspace := alert.metadata.nspace, name := alert.metadata.name },
           .create alert]))
    ∧ (∀ existing,
      c.get { nspace := alert.metadata.nspace, name := alert.metadata.name } = .ok existing →
      c.updateErr (mergeAlert existing alert) = none →
      upsertAlert c alert =
        (.ok .updated,
          [.getA { nspace := alert.metadata.nspace, name := alert.metadata.name },
           .update (mergeAlert existing alert)]))
    ∧ (∀ e, c.get { nspace := alert.metadata.nspace, name := alert.metadata.name } = .error e →
      IsNotFound e = false →
      upsertAlert c alert =
        (.error (.kerr e),
          [.getA { nspace := alert.metadata.nspace, name := alert.metadata.name }])) := by
  refine ⟨fun e hget hnf hcr => ?_, fun existing hget hup => ?_, fun e hget hnf => ?_⟩
  · simp [upsertAlert, hget, hnf, hcr]
  · simp [upsertAlert, hget, hup]
  · simp [upsertAlert, hget, hnf]

/-- Witness for C1: a not-found fetch leads to creating the desired alert
verbatim with the created outcome. -/
theorem upsertAlert_fetch_branches_witness :
    upsertAlert wClientNotFound wAlert = (.ok .created, [.getA wNN, .create wAlert]) :=
  (upsertAlert_fetch_branches wClientNotFound wAlert).1 .notFound rfl rfl rfl

/-- C4: on the found branch the object `upsertAlert` passes to Update has
the desired alert's labels and spec, and the existing object's name,
namespace, annotations, resource version and status. -/
theorem upsertAlert_update_merge (c : KubeClient) (alert existing : Alert)
    (hget : c.get { nspace := alert.metadata.nspace, name := alert.metadata.name } = .ok existing) :
    (upsertAlert c alert).2 =
      [.getA { nspace := alert.metadata.nspace, name := alert.metadata.name },
       .update (mergeAlert existing alert)]
    ∧ (mergeAlert existing alert).metadata.labels = alert.metadata.labels
    ∧ (mergeAlert existing alert).spec = alert.spec
    ∧ (mergeAlert existing alert).metadata.name = existing.metadata.name
    ∧ (mergeAlert existing alert).metadata.nspace = existing.metadata.nspace
    ∧ (mergeAlert existing alert).metadata.annotations' = existing.metadata.annotations'
    ∧ (mergeAlert existing alert).metadata.resourceVersion = existing.metadata.resourceVersion
    ∧ (mergeAlert existing alert).status = existing.status := by
  refine ⟨?_, rfl, rfl, rfl, rfl, rfl, rfl, rfl⟩
  cases hu : c.updateErr (mergeAlert existing alert) <;> simp [upsertAlert, hget, hu]

/-- Witness for C4: updating over `wExisting` passes exactly the merged
object to Update. -/
theorem upsertAlert_update_merge_witness :
    (upsertAlert wClientFound wAlert).2 = [.getA wNN, .update (mergeAlert wExisting wAlert)] :=
  (upsertAlert_update_merge wClientFound wAlert wExisting rfl).1

/-- C2: a poll step on a fetched alert succeeds exactly when the resolved
Ready condition (the first one, per `GetCondition`) has status True; an
absent Ready condition, or one whose status is neither True nor False,
keeps polling without error. -/
theorem isAlertReady_step_spec (alert : Alert) :
    (isAlertReady (.ok alert) = (true, none) ↔
      ∃ c, GetCondition alert.status.conditions ReadyCondition = some c ∧
        c.status = ConditionTrue)
    ∧ (GetCondition alert.status.conditions ReadyCondition = none →
      isAlertReady (.ok alert) = (false, none))
    ∧ (∀ c, GetCondition alert.status.conditions ReadyCondition = some c →
      c.status ≠ ConditionTrue → c.status ≠ ConditionFalse →
      isAlertReady (.ok alert) = (false, none)) := by
  cases h : GetCondition alert.status.conditions ReadyCondition with
  | none =>
    refine ⟨?_, fun _ => by simp [isAlertReady, h], fun c hc => by simp [h] at hc⟩
    simp [isAlertReady, h]
  | some c =>
    refine ⟨?_, fun hn => by simp [h] at hn, fun c' hc' h1 h2 => ?_⟩
    · by_cases ht : c.status = ConditionTrue
      · simp [isAlertReady, h, ht]
      · by_cases hf : c.status = ConditionFalse <;> simp [isAlertReady, h, ht, hf]
    · have hcc : c' = c := (Option.some.inj hc').symm
      rw [hcc] at h1 h2
      by_cases hf : c.status = ConditionFalse
      · exact absurd hf h2
      · simp [isAlertReady, h, h1, hf]

/-- Witness for C2: a True Ready condition succeeds; an Unknown one keeps
polling without error. -/
theorem isAlertReady_step_spec_witness :
    isAlertReady (.ok wTrueAlert) = (true, none)
    ∧ isAlertReady (.ok wUnknownAlert) = (false, none) :=
  ⟨(isAlertReady_step_spec wTrueAlert).1.mpr
      ⟨{ type' := "Ready", status := "True", message := "done" }, rfl, rfl⟩,
   (isAlertReady_step_spec wUnknownAlert).2.2
      { type' := "Ready", status := "Unknown", message := "" } rfl (by decide) (by decide)⟩

/-- C3: a poll step observing a Ready condition with status False returns
an error carrying exactly the condition's message (empty messages pass
through as-is), and the poll loop stops immediately: only the one fetch
is issued, whatever later poll instants would have shown. -/
theorem isAlertReady_false_terminal (alert : Alert) (c : Condition)
    (hc : GetCondition alert.status.conditions ReadyCondition = some c)
    (hf : c.status = ConditionFalse) :
    isAlertReady (.ok alert) = (false, some (.msg c.message))
    ∧ ∀ nn rest, pollImmediate nn (.ok alert :: rest) =
      (.error (.msg c.message), [.getA nn]) := by
  have ht : c.status ≠ ConditionTrue := by
    simp [hf, ConditionFalse, ConditionTrue]
  have hstep : isAlertReady (.ok alert) = (false, some (.msg c.message)) := by
    simp [isAlertReady, hc, hf, ConditionFalse, ConditionTrue]
  exact ⟨hstep, fun nn rest => by simp [pollImmediate, hstep]⟩

/-- Witness for C3: a False Ready condition with an empty message fails
the step with an empty-message error and stops the loop before a poll
instant that would have succeeded. -/
theorem isAlertReady_false_terminal_witness :
    isAlertReady (.ok wFalseAlert) = (false, some (.msg ""))
    ∧ pollImmediate wNN [.ok wFalseAlert, .ok wTrueAlert] = (.error (.msg ""), [.getA wNN]) :=
  ⟨(isAlertReady_false_terminal wFalseAlert
      { type' := "Ready", status := "False", message := "" } rfl rfl).1,
   (isAlertReady_false_terminal wFalseAlert
      { type' := "Ready", status := "False", message := "" } rfl rfl).2 wNN [.ok wTrueAlert]⟩

/-- C5: evaluating the all-namespaces listing on a concrete cluster shows
the divergence: the header gains the Namespace column (5 columns) but the
rendered row still has 4 cells and starts with the resource's name, not
its namespace — rows are never prefixed with the namespace. -/
theorem getReceiver_allNamespaces_row_not_prefixed :
    getReceiverCmdRun true "flux-system" (.ok [wReceiver]) =
      (.ok (), [.printTable ["Namespace", "Name", "Suspended", "Ready", "Message"]
        [["podinfo", "False", "False", "waiting to be reconciled"]]])
    ∧ (receiverHeader true).length = 5
    ∧ (receiverRow wReceiver).length = 4
    ∧ (receiverRow wReceiver).head? = some "podinfo" :=
  ⟨rfl, rfl, rfl, rfl⟩

/-- C6: a successful non-empty fetch renders exactly one row per
resource, in fetch order: index i of the rows is the rendering of index i
of the items, showing the Ready condition's literal status and message
when one exists and False / "waiting to be reconciled" otherwise. -/
theorem getReceiver_rows_per_item (allNamespaces : Bool) (nspace : String)
    (items : List Receiver) (hne : items ≠ []) :
    getReceiverCmdRun allNamespaces nspace (.ok items) =
      (.ok (), [.printTable (receiverHeader allNamespaces) (items.map receiverRow)])
    ∧ (items.map receiverRow).length = items.length
    ∧ (∀ (i : Nat) (r : Receiver), items[i]? = some r →
      (items.map receiverRow)[i]? = some
        [r.metadata.name, titleFormatBool r.spec.suspend,
         ((GetCondition r.status.conditions ReadyCondition).map Condition.status).getD
           ConditionFalse,
         ((GetCondition r.status.conditions ReadyCondition).map Condition.message).getD
           "waiting to be reconciled"]) := by
  have hlen : items.length ≠ 0 := fun h => hne (List.length_eq_zero.mp h)
  refine ⟨by simp [getReceiverCmdRun, hlen], List.length_map _ _, ?_⟩
  intro i r hir
  have hrow : (items.map receiverRow)[i]? = some (receiverRow r) := by
    rw [List.getElem?_map, hir]; rfl
  rw [hrow]
  unfold receiverRow
  cases h : GetCondition r.status.conditions ReadyCondition <;> simp [h]

/-- Witness for C6 over a two-receiver fetch: one placeholder row and one
literal-condition row, in fetch order. -/
theorem getReceiver_rows_per_item_witness :
    getReceiverCmdRun false "flux-system" (.ok [wReceiver, wReadyReceiver]) =
      (.ok (), [.printTable ["Name", "Suspended", "Ready", "Message"]
        [["podinfo", "False", "False", "waiting to be reconciled"],
         ["webapp", "True", "True", "initialized"]]]) :=
  (getReceiver_rows_per_item false "flux-system" [wReceiver, wReadyReceiver]
    (by simp)).1

/-- C9: a successful fetch with zero items logs the "no receivers found"
line as its only output — so no table and zero rows — and returns nil
rather than an error. -/
theorem getReceiver_empty_ok (allNamespaces : Bool) (nspace : String) :
    getReceiverCmdRun allNamespaces nspace (.ok []) =
      (.ok (), [.failuref ("no receivers found in " ++ nspace ++ " namespace")]) :=
  rfl

/-- A list containing an entry whose kind parses empty makes the
event-source loop fail (with the error of the first offending entry). -/
theorem buildEventSources_error_of_parse (l : List String) (src : String)
    (hmem : src ∈ l) (hk : (parseObjectKindName src).1 = "") :
    ∃ e, buildEventSources l = .error e := by
  induction l with
  | nil => cases hmem
  | cons hd tl ih =>
    by_cases hhd : (parseObjectKindName hd).1 = ""
    · refine ⟨.msg ("invalid event source \x27" ++ hd ++ "\x27, must be in format <kind>/<name>"), ?_⟩
      simp [buildEventSources, hhd]
    · have hmem' : src ∈ tl := by
        rcases List.mem_cons.mp hmem with rfl | h
        · exact absurd hk hhd
        · exact h
      obtain ⟨e, he⟩ := ih hmem'
      exact ⟨e, by simp [buildEventSources, hhd, he]⟩

/-- C7: each validation failure — missing name argument, empty provider
ref, an event source whose parse yields an empty kind, or zero event
sources — returns an error with an empty action list: no client is
constructed and no Get, Create or Update is issued. -/
theorem createAlert_validation_no_network (s : CmdState) :
    (s.args.length < 1 →
      createAlertCmdRun s = (.error (.msg "alert name is required"), []))
    ∧ (1 ≤ s.args.length → s.aProviderRef = "" →
      createAlertCmdRun s = (.error (.msg "provider ref is required"), []))
    ∧ (∀ src, 1 ≤ s.args.length → s.aProviderRef ≠ "" → src ∈ s.aEventSources →
      (parseObjectKindName src).1 = "" →
      ∃ e, createAlertCmdRun s = (.error e, []))
    ∧ (1 ≤ s.args.length → s.aProviderRef ≠ "" → s.aEventSources = [] →
      createAlertCmdRun s = (.error (.msg "at least one event source is required"), [])) := by
  refine ⟨fun h1 => ?_, fun h1 h2 => ?_, fun src h1 h2 hmem hk => ?_, fun h1 h2 h3 => ?_⟩
  · simp [createAlertCmdRun, h1]
  · simp [createAlertCmdRun, Nat.not_lt.mpr h1, h2]
  · obtain ⟨e, he⟩ := buildEventSources_error_of_parse s.aEventSources src hmem hk
    exact ⟨e, by simp [createAlertCmdRun, Nat.not_lt.mpr h1, h2, he]⟩
  · simp [createAlertCmdRun, Nat.not_lt.mpr h1, h2, h3, buildEventSources]

/-- Witness for C7: with no positional argument the command fails with
the name-required error and issues nothing. -/
theorem createAlert_validation_no_network_witness :
    createAlertCmdRun wStateNoName = (.error (.msg "alert name is required"), []) :=
  (createAlert_validation_no_network wStateNoName).1 (by decide)

/-- C8: with the export flag set and validation passing, the command
returns the serialization of the desired alert with an empty action
list: no client construction, no upsert, no readiness poll. -/
theorem createAlert_export_no_network (s : CmdState)
    (srcs : List CrossNamespaceObjectReference) (lbls : List (String × String))
    (hargs : 1 ≤ s.args.length) (hpr : s.aProviderRef ≠ "")
    (hsrcs : buildEventSources s.aEventSources = .ok srcs) (hne : srcs ≠ [])
    (hl : s.labelsResult = .ok lbls) (hexp : s.exportFlag = true) :
    createAlertCmdRun s =
      (exportAlert (mkDesiredAlert (s.args.headD "") s.nspace lbls
        s.aProviderRef s.aEventSeverity srcs), [])
    ∧ createAlertCmdRun s = (.ok (), []) := by
  have hlen : ¬ s.args.length < 1 := Nat.not_lt.mpr hargs
  have hne' : srcs.length ≠ 0 := fun h => hne (List.length_eq_zero.mp h)
  constructor <;> simp [createAlertCmdRun, hlen, hpr, hsrcs, hne', hl, hexp, exportAlert]

/-- Witness for C8 at concrete valid export inputs. -/
theorem createAlert_export_no_network_witness :
    createAlertCmdRun wStateExport = (.ok (), []) :=
  (createAlert_export_no_network wStateExport
    [{ kind := "Kustomization", name := "gotk-system" }] [("team", "dev")]
    (by decide) (by decide) rfl (by decide) rfl rfl).2

/-- Every Create or Update issued by `upsertAlert` carries the desired
alert's spec. -/
theorem upsertAlert_write_spec (c : KubeClient) (alert a : Alert)
    (h : NetAction.create a ∈ (upsertAlert c alert).2
      ∨ NetAction.update a ∈ (upsertAlert c alert).2) :
    a.spec = alert.spec := by
  cases hget : c.get { nspace := alert.metadata.nspace, name := alert.metadata.name } with
  | error e =>
    by_cases hnf : IsNotFound e
    · cases hcr : c.createErr alert with
      | some ce =>
        simp [upsertAlert, hget, hnf, hcr] at h
        rw [h]
      | none =>
        simp [upsertAlert, hget, hnf, hcr] at h
        rw [h]
    · simp [upsertAlert, hget, hnf] at h
  | ok existing =>
    cases hup : c.updateErr (mergeAlert existing alert) with
    | some ue =>
      simp [upsertAlert, hget, hup] at h
      rw [h]; rfl
    | none =>
      simp [upsertAlert, hget, hup] at h
      rw [h]; rfl

/-- The poll loop only ever issues fetches. -/
theorem pollImmediate_actions_get (nn : NamespacedName)
    (rs : List (Except KError Alert)) :
    ∀ x ∈ (pollImmediate nn rs).2, x = NetAction.getA nn := by
  induction rs with
  | nil => intro x hx; simp [pollImmediate] at hx
  | cons r rest ih =>
    intro x hx
    rcases hstep : isAlertReady r with ⟨b, oe⟩
    cases oe with
    | some e =>
      cases b <;> · simp [pollImmediate, hstep] at hx; simp [hx]
    | none =>
      cases b with
      | true => simp [pollImmediate, hstep] at hx; simp [hx]
      | false =>
        simp [pollImmediate, hstep] at hx
        rcases hx with rfl | hx
        · rfl
        · exact ih x hx

/-- C10: the desired alert built by `createAlertCmdRun` has suspend false
for every combination of name, namespace, labels, provider ref, severity
and event sources, and consequently every Alert the command writes to the
cluster — by Create or Update, under any inputs — has suspend false. -/
theorem createAlert_never_suspends :
    (∀ name nspace lbls providerRef severity srcs,
      (mkDesiredAlert name nspace lbls providerRef severity srcs).spec.suspend = false)
    ∧ (∀ s a, NetAction.create a ∈ (createAlertCmdRun s).2
        ∨ NetAction.update a ∈ (createAlertCmdRun s).2 →
      a.spec.suspend = false) := by
  refine ⟨fun _ _ _ _ _ _ => rfl, fun s a h => ?_⟩
  by_cases h1 : s.args.length < 1
  · simp [createAlertCmdRun, h1] at h
  · by_cases h2 : s.aProviderRef = ""
    · simp [createAlertCmdRun, h1, h2] at h
    · cases hsrc : buildEventSources s.aEventSources with
      | error e => simp [createAlertCmdRun, h1, h2, hsrc] at h
      | ok srcs =>
        by_cases h3 : srcs.length = 0
        · simp [createAlertCmdRun, h1, h2, hsrc, h3] at h
        · cases hl : s.labelsResult with
          | error e => simp [createAlertCmdRun, h1, h2, hsrc, h3, hl] at h
          | ok lbls =>
            by_cases h4 : s.exportFlag
            · simp [createAlertCmdRun, h1, h2, hsrc, h3, hl, h4] at h
            · cases hkc : s.kubeClientResult with
              | error e => simp [createAlertCmdRun, h1, h2, hsrc, h3, hl, h4, hkc] at h
              | ok kc =>
                have hspec : a.spec =
                    (mkDesiredAlert (s.args.head?.getD "") s.nspace lbls
                      s.aProviderRef s.aEventSeverity srcs).spec := by
                  apply upsertAlert_write_spec kc _ a
                  simp [createAlertCmdRun, h1, h2, hsrc, h3, hl, h4, hkc] at h
                  rcases h with h | h
                  · split at h
                    · simp at h
                      exact Or.inl h
                    · simp at h
                      rcases h with h | h
                      · exact Or.inl h
                      · exact absurd (pollImmediate_actions_get _ _ _ h) (by simp)
                  · split at h
                    · simp at h
                      exact Or.inr h
                    · simp at h
                      rcases h with h | h
                      · exact Or.inr h
                      · exact absurd (pollImmediate_actions_get _ _ _ h) (by simp)
                simp [hspec, mkDesiredAlert]

/-- Witness for C10: the alert created by a concrete full run of the
command is not suspended. -/
theorem createAlert_never_suspends_witness :
    wAlert.spec.suspend = false :=
  createAlert_never_suspends.2 wStateCreate wAlert (Or.inl (by decide))

end Gotk
